import Mathlib

/-!
Verification of the column-profiling routine `num_variable_analysis` from
`src/eda_tools.py` (the ColumnProfiler of the specification).

Modelling conventions:
* a dataframe column is a list of optional rationals; `none` models a
  missing entry (NaN) and `some q` a present numeric value;
* a dataframe is a list of named columns, looked up by name;
* every observable side effect of the routine (each plotting call, each
  printed line, the figure creation and the final `show`) is recorded as
  one `Event` in an ordered log, mirroring statement order in the source;
* Python exceptions that escape the routine are modelled with `Except`:
  the failed `assert` on `target_type` becomes `ProfileError.invalidArgument`
  with its message, an unresolvable column name becomes `ProfileError.keyError`;
* float results are modelled as real numbers; the pandas correlation value
  NaN (returned when a pairwise-complete variance vanishes) is modelled as
  `none : Option ℝ`, a defined coefficient as `some r`.
-/

/-- A dataframe column: each entry is either a present rational value or
missing (NaN). -/
abbrev Col := List (Option ℚ)

/-- A dataframe: an ordered association of column names to columns. -/
structure Frame where
  cols : List (String × Col)
deriving DecidableEq

namespace Frame

/-- Column selection `df[name]`; `none` models a raised `KeyError`. -/
def get? (df : Frame) (name : String) : Option Col :=
  df.cols.lookup name

end Frame

/-- The values of a column that are defined (pandas drops NaN). -/
def definedVals (c : Col) : List ℚ :=
  c.filterMap id

/-- `df[item].isna().sum()`: the number of missing entries of a column. -/
def naCount (c : Col) : ℕ :=
  c.countP (fun x => x.isNone)

/-- `df[item].min()`: minimum over the defined entries (pandas skips NaN);
junk value `0` for a column with no defined entry. -/
def colMin (c : Col) : ℚ :=
  match definedVals c with
  | [] => 0
  | x :: xs => xs.foldl min x

/-- `df[item].max()`: maximum over the defined entries (pandas skips NaN);
junk value `0` for a column with no defined entry. -/
def colMax (c : Col) : ℚ :=
  match definedVals c with
  | [] => 0
  | x :: xs => xs.foldl max x

/-- The rows where both columns have a defined value (pairwise-complete
observations, as used by `DataFrame.corr`). -/
def completePairs (cx cy : Col) : List (ℚ × ℚ) :=
  (cx.zip cy).filterMap (fun p =>
    match p with
    | (some a, some b) => some (a, b)
    | _ => none)

/-- Arithmetic mean of a list of rationals (`0` for the empty list, by the
Lean convention `x / 0 = 0`). -/
def lmean (l : List ℚ) : ℚ :=
  l.sum / (l.length : ℚ)

/-- Centered cross-product sum `Σ (xᵢ - x̄) * (yᵢ - ȳ)` of a paired sample. -/
def covSum (l : List (ℚ × ℚ)) : ℚ :=
  (l.map (fun p =>
    (p.1 - lmean (l.map Prod.fst)) * (p.2 - lmean (l.map Prod.snd)))).sum

/-- Centered square sum `Σ (xᵢ - x̄)^2` of the first components. -/
def varXSum (l : List (ℚ × ℚ)) : ℚ :=
  (l.map (fun p => (p.1 - lmean (l.map Prod.fst)) ^ 2)).sum

/-- Centered square sum `Σ (yᵢ - ȳ)^2` of the second components. -/
def varYSum (l : List (ℚ × ℚ)) : ℚ :=
  (l.map (fun p => (p.2 - lmean (l.map Prod.snd)) ^ 2)).sum

/-- The Pearson correlation coefficient of a paired sample, as produced by
`df[[item, target]].corr()` on the pairwise-complete rows:
`Σ dx dy / sqrt (Σ dx² * Σ dy²)`; `none` models the NaN that pandas
returns when either centered square sum vanishes (degenerate sample). -/
noncomputable def pearsonOf (l : List (ℚ × ℚ)) : Option ℝ :=
  if varXSum l * varYSum l = 0 then none
  else some ((covSum l : ℝ) / Real.sqrt ((varXSum l : ℝ) * (varYSum l : ℝ)))

/-- The average rank (1-based, ties averaged) of `x` within sample `l`, the
ranking used by `corr(method=spearman)`. -/
def rankIn (l : List ℚ) (x : ℚ) : ℚ :=
  (l.countP (fun y => decide (y < x)) : ℚ) +
    ((l.countP (fun y => decide (y = x)) : ℚ) + 1) / 2

/-- Replace each component of a paired sample by its average rank within
its own column. -/
def rankPairs (l : List (ℚ × ℚ)) : List (ℚ × ℚ) :=
  l.map (fun p =>
    (rankIn (l.map Prod.fst) p.1, rankIn (l.map Prod.snd) p.2))

/-- The Spearman correlation coefficient of a paired sample: the Pearson
coefficient of the rank-transformed sample. -/
noncomputable def spearmanOf (l : List (ℚ × ℚ)) : Option ℝ :=
  pearsonOf (rankPairs l)

/-- Histogram bin specification: a bin count or explicit bin edges. -/
inductive Bins where
  | count (n : ℕ)
  | edges (es : List ℚ)
deriving DecidableEq

/-- Exceptions escaping the routine. -/
inductive ProfileError where
  | invalidArgument (msg : String)
  | keyError (name : String)
deriving DecidableEq

/-- The message of the `assert` guarding `target_type`. -/
def assertMsg : String :=
  "Please define target_type as numeric or categorical"

/-- One observable side effect of the routine, in statement order. -/
inductive Event where
  | subplotsE (rows cols : ℕ)
  | subplotE (rows cols idx : ℕ)
  | histplotE (item : String) (bins : Bins) (color : String)
  | ylimE (lo hi : ℚ)
  | xticksE
  | titleE (text : String) (fontsize : ℕ)
  | boxenplotSingleE (item : String) (color : String)
  | boxenplotGroupedE (target item : String)
  | ylabelE (text : String)
  | scatterE (target item : String) (color : String)
  | kdeplotE (target item : String) (value : Option ℚ) (count : ℕ)
  | legendE (fontsize : ℕ)
  | printHeaderE (item : String)
  | displayInfoE (row : List String)
  | printMissingE (item : String) (count : ℕ)
  | printStatsHeaderE
  | displayDescribeE (item : String)
  | printCorrHeaderE
  | printPearsonE (item target : String) (v : Option ℝ)
  | printSpearmanE (item target : String) (v : Option ℝ)
  | titleCorrE (pearson spearman : Option ℝ) (fontsize : ℕ)
  | showE
  | printConclusionE (item : String) (text : String)
  | printBlankE

/-- Unique values of a column in order of first appearance
(`Series.unique`), NaN included once. -/
def uniqueVals (c : Col) : List (Option ℚ) :=
  go c []
where
  go : Col → List (Option ℚ) → List (Option ℚ)
    | [], acc => acc.reverse
    | x :: xs, acc => if x ∈ acc then go xs acc else go xs (x :: acc)

/-- `len(df[df[target] == v])`: pandas `==` is false on NaN, even against
NaN itself, so the count for the NaN class is `0`. -/
def eqCount (c : Col) (v : Option ℚ) : ℕ :=
  match v with
  | none => 0
  | some q => c.countP (fun x => decide (x = some q))

/-- Lookup of `data_info.loc[item, :]`; `none` covers every failure mode of
the `try` block (absent table or missing row). -/
def infoLookup (data_info : Option (List (String × List String)))
    (item : String) : Option (List String) :=
  match data_info with
  | none => none
  | some t => t.lookup item

/-- Lookup of `descr_dict[item]`; `none` covers every failure mode of the
`try` block (absent dictionary or missing key). -/
def dictLookup (descr_dict : Option (List (String × String)))
    (item : String) : Option String :=
  match descr_dict with
  | none => none
  | some d => d.lookup item

/-- The pair of correlation coefficients that the routine returns:
computed only when `item != target_name` and the target is numeric. -/
noncomputable def corrResult (ci ct : Col) (item target_name target_type : String) :
    Option (Option ℝ × Option ℝ) :=
  if item ≠ target_name ∧ target_type = "numeric" then
    some (pearsonOf (completePairs ci ct), spearmanOf (completePairs ci ct))
  else none

/-- The events of the final `try print conclusion / except pass` block. -/
def conclEvents (descr_dict : Option (List (String × String)))
    (item : String) : List Event :=
  match dictLookup descr_dict item with
  | some t => [.printConclusionE item t]
  | none => []

/-- The ordered event log of one successful run up to and including
`plt.show()`, statement by statement. -/
noncomputable def mainEvents (ci ct : Col) (item target_name target_type : String)
    (bins : Bins) (color : String) (fontsize : ℕ)
    (data_info : Option (List (String × List String))) : List Event :=
  let nx : ℕ := if item ≠ target_name then 3 else 2
  let yMin : ℚ := colMin ci - (5 / 100 : ℚ) * (colMax ci - colMin ci)
  let yMax : ℚ := colMax ci + (5 / 100 : ℚ) * (colMax ci - colMin ci)
  let fig1 : List Event :=
    [.subplotE 1 nx 1, .histplotE item bins color, .ylimE yMin yMax,
     .xticksE, .titleE ("Distribition of " ++ item) fontsize]
  let fig2 : List Event :=
    [.subplotE 1 nx 2] ++
    (if target_type = "numeric" then [.boxenplotSingleE item color]
     else [.boxenplotGroupedE target_name item, .xticksE]) ++
    [.ylimE yMin yMax, .ylabelE "", .titleE item fontsize]
  let fig3 : List Event :=
    if item ≠ target_name then
      [.subplotE 1 nx 3] ++
      (if target_type = "numeric" then
        [.scatterE target_name item color, .xticksE]
       else
        (uniqueVals ct).flatMap (fun v =>
          [.kdeplotE target_name item v (eqCount ct v),
           .titleE item fontsize, .legendE (fontsize - 1)])) ++
      [.ylimE yMin yMax]
    else []
  let textEv : List Event :=
    [.printHeaderE item] ++
    (match infoLookup data_info item with
     | some row => [.displayInfoE row]
     | none => [.printMissingE item (naCount ci)]) ++
    [.printStatsHeaderE, .displayDescribeE item]
  let corrEv : List Event :=
    if item ≠ target_name ∧ target_type = "numeric" then
      [.printCorrHeaderE,
       .printPearsonE item target_name (pearsonOf (completePairs ci ct)),
       .printSpearmanE item target_name (spearmanOf (completePairs ci ct)),
       .titleCorrE (pearsonOf (completePairs ci ct))
         (spearmanOf (completePairs ci ct)) fontsize]
    else []
  [.subplotsE 1 nx] ++ fig1 ++ fig2 ++ fig3 ++ textEv ++ corrEv ++ [.showE]

/-- The full ordered event log of one successful run. -/
noncomputable def buildEvents (ci ct : Col) (item target_name target_type : String)
    (bins : Bins) (color : String) (fontsize : ℕ)
    (descr_dict : Option (List (String × String)))
    (data_info : Option (List (String × List String))) : List Event :=
  mainEvents ci ct item target_name target_type bins color fontsize data_info ++
    conclEvents descr_dict item ++ [.printBlankE]

/-- Shallow embedding of `num_variable_analysis` from `src/eda_tools.py`.
The `assert` on `target_type` runs before everything else; then the column
of `item` is selected (a missing name raises `KeyError` here, before the
target column is ever read); on success the routine returns the optional
correlation pair together with the ordered log of its side effects. -/
noncomputable def num_variable_analysis (df : Frame)
    (item target_name target_type : String)
    (bins : Bins) (color : String) (fontsize : ℕ)
    (descr_dict : Option (List (String × String)))
    (data_info : Option (List (String × List String))) :
    Except ProfileError (Option (Option ℝ × Option ℝ) × List Event) :=
  if target_type = "numeric" ∨ target_type = "categorical" then
    match df.get? item with
    | none => .error (.keyError item)
    | some ci =>
      match df.get? target_name with
      | none => .error (.keyError target_name)
      | some ct =>
        .ok (corrResult ci ct item target_name target_type,
             buildEvents ci ct item target_name target_type bins color
               fontsize descr_dict data_info)
  else .error (.invalidArgument assertMsg)

/-- The returned value of a run: `none` if an exception escaped, otherwise
`some` of the returned optional correlation pair. -/
def resultOf {α : Type} (r : Except ProfileError (α × List Event)) : Option α :=
  match r with
  | .ok (a, _) => some a
  | .error _ => none

/-- The event log of a run: `[]` if an exception escaped before completion. -/
def eventsOf {α : Type} (r : Except ProfileError (α × List Event)) : List Event :=
  match r with
  | .ok (_, ev) => ev
  | .error _ => []

/-- Mutable world: the dataframe in place plus everything already sent to
the rendering/output streams. -/
structure World where
  frame : Frame
  out : List Event

/-- The routine acting on the world: it reads `w.frame` (Python passes the
dataframe by reference and the source never assigns into it) and appends
its side effects to the output stream. -/
noncomputable def profileW (w : World) (item target_name target_type : String)
    (bins : Bins) (color : String) (fontsize : ℕ)
    (descr_dict : Option (List (String × String)))
    (data_info : Option (List (String × List String))) :
    Except ProfileError (Option (Option ℝ × Option ℝ) × World) :=
  (num_variable_analysis w.frame item target_name target_type bins color
      fontsize descr_dict data_info).map
    (fun r => (r.1, ⟨w.frame, w.out ++ r.2⟩))

/-- Does the event activate one panel (`plt.subplot`)? -/
def Event.isPanelActivation : Event → Bool
  | .subplotE _ _ _ => true
  | _ => false

/-- Does the event create the figure (`plt.subplots`)? -/
def Event.isFigureCreation : Event → Bool
  | .subplotsE _ _ => true
  | _ => false

/-- Is the event the final `plt.show()`? -/
def Event.isShow : Event → Bool
  | .showE => true
  | _ => false

/-- Is the event a `plt.ylim` range assignment? -/
def Event.isYlim : Event → Bool
  | .ylimE _ _ => true
  | _ => false

/-- Is the event a printed conclusion line? -/
def Event.isConclusion : Event → Bool
  | .printConclusionE _ _ => true
  | _ => false

/-- C2: for any dataset and any `target_type` outside {numeric, categorical},
the routine raises `InvalidArgument` with its descriptive message and
produces no side effect at all: no event is emitted. -/
theorem c2_invalid_target_type_fails_fast (df : Frame)
    (item target_name target_type : String) (bins : Bins) (color : String)
    (fontsize : ℕ) (descr_dict : Option (List (String × String)))
    (data_info : Option (List (String × List String)))
    (h : target_type ≠ "numeric" ∧ target_type ≠ "categorical") :
    num_variable_analysis df item target_name target_type bins color fontsize
        descr_dict data_info = .error (.invalidArgument assertMsg) ∧
      eventsOf (num_variable_analysis df item target_name target_type bins
        color fontsize descr_dict data_info) = [] := by
  have hcond : ¬ (target_type = "numeric" ∨ target_type = "categorical") := by
    rintro (h1 | h2)
    · exact h.1 h1
    · exact h.2 h2
  constructor
  · unfold num_variable_analysis
    rw [if_neg hcond]
  · unfold num_variable_analysis
    rw [if_neg hcond]
    rfl

/-- Witness for C2 at a concrete invalid `target_type`. -/
theorem c2_invalid_target_type_fails_fast_witness :
    num_variable_analysis ⟨[("x", [some 1])]⟩ "x" "y" "other" (.count 100)
        "maroon" 14 none none = .error (.invalidArgument assertMsg) ∧
      eventsOf (num_variable_analysis ⟨[("x", [some 1])]⟩ "x" "y" "other"
        (.count 100) "maroon" 14 none none) = [] :=
  c2_invalid_target_type_fails_fast ⟨[("x", [some 1])]⟩ "x" "y" "other"
    (.count 100) "maroon" 14 none none ⟨by decide, by decide⟩

/-- C3: when `item == target_name` and the target type is valid, the routine
returns the absence marker `None`, whatever the remaining arguments are. -/
theorem c3_same_column_returns_none (df : Frame) (item target_type : String)
    (bins : Bins) (color : String) (fontsize : ℕ)
    (descr_dict : Option (List (String × String)))
    (data_info : Option (List (String × List String))) (ci : Col)
    (htt : target_type = "numeric" ∨ target_type = "categorical")
    (hci : df.get? item = some ci) :
    resultOf (num_variable_analysis df item item target_type bins color
      fontsize descr_dict data_info) = some none := by
  unfold num_variable_analysis
  rw [if_pos htt, hci]
  have hres : corrResult ci ci item item target_type = none := by
    unfold corrResult
    rw [if_neg]
    rintro ⟨hne, -⟩
    exact hne rfl
  simp [resultOf, hres]

/-- Witness for C3 on a concrete one-column dataset. -/
theorem c3_same_column_returns_none_witness :
    resultOf (num_variable_analysis ⟨[("x", [some 1, none])]⟩ "x" "x"
      "numeric" (.count 100) "maroon" 14 none none) = some none :=
  c3_same_column_returns_none ⟨[("x", [some 1, none])]⟩ "x" "numeric"
    (.count 100) "maroon" 14 none none [some 1, none] (Or.inl rfl) rfl

/-- C4: for distinct resolvable columns and a categorical target, the routine
returns the absence marker `None`: no correlation pair is produced. -/
theorem c4_categorical_returns_none (df : Frame) (item target_name : String)
    (bins : Bins) (color : String) (fontsize : ℕ)
    (descr_dict : Option (List (String × String)))
    (data_info : Option (List (String × List String))) (ci ct : Col)
    (hne : item ≠ target_name) (hci : df.get? item = some ci)
    (hct : df.get? target_name = some ct) :
    resultOf (num_variable_analysis df item target_name "categorical" bins
      color fontsize descr_dict data_info) = some none := by
  unfold num_variable_analysis
  rw [if_pos (Or.inr rfl), hci, hct]
  have hres : corrResult ci ct item target_name "categorical" = none := by
    unfold corrResult
    rw [if_neg]
    rintro ⟨-, hnum⟩
    exact absurd hnum (by decide)
  simp [resultOf, hres]

/-- Witness for C4 on a concrete two-column dataset. -/
theorem c4_categorical_returns_none_witness :
    resultOf (num_variable_analysis ⟨[("x", [some 1]), ("y", [some 2])]⟩
      "x" "y" "categorical" (.count 100) "maroon" 14 none none) = some none :=
  c4_categorical_returns_none ⟨[("x", [some 1]), ("y", [some 2])]⟩ "x" "y"
    (.count 100) "maroon" 14 none none [some 1] [some 2] (by decide) rfl rfl

/-- C10: the returned value (correlation pair or absence marker, or the
escaping exception) depends only on the dataset, `item`, `target_name` and
`target_type`; the presentation arguments `bins`, `color`, `fontsize`,
`descr_dict` and `data_info` never influence it. -/
theorem c10_result_ignores_presentation_args (df : Frame)
    (item target_name target_type : String)
    (bins₁ bins₂ : Bins) (color₁ color₂ : String) (fontsize₁ fontsize₂ : ℕ)
    (descr_dict₁ descr_dict₂ : Option (List (String × String)))
    (data_info₁ data_info₂ : Option (List (String × List String))) :
    resultOf (num_variable_analysis df item target_name target_type bins₁
        color₁ fontsize₁ descr_dict₁ data_info₁) =
      resultOf (num_variable_analysis df item target_name target_type bins₂
        color₂ fontsize₂ descr_dict₂ data_info₂) := by
  unfold num_variable_analysis
  by_cases h : target_type = "numeric" ∨ target_type = "categorical"
  · rw [if_pos h, if_pos h]
    cases hci : df.get? item with
    | none => rfl
    | some ci =>
      cases hct : df.get? target_name with
      | none => rfl
      | some ct => rfl
  · rw [if_neg h, if_neg h]

/-- When the `info_table` lookup fails, the fallback branch prints the
missing-value count of the column of `item`. -/
theorem printMissing_mem_mainEvents (ci ct : Col)
    (item target_name target_type : String) (bins : Bins) (color : String)
    (fontsize : ℕ) (data_info : Option (List (String × List String)))
    (hinfo : infoLookup data_info item = none) :
    Event.printMissingE item (naCount ci) ∈
      mainEvents ci ct item target_name target_type bins color fontsize
        data_info := by
  simp only [mainEvents]
  rw [hinfo]
  simp [List.mem_append]

/-- The info-table display event never occurs when the lookup fails. -/
theorem displayInfo_not_mem_mainEvents (ci ct : Col)
    (item target_name target_type : String) (bins : Bins) (color : String)
    (fontsize : ℕ) (data_info : Option (List (String × List String)))
    (hinfo : infoLookup data_info item = none) (row : List String) :
    Event.displayInfoE row ∉
      mainEvents ci ct item target_name target_type bins color fontsize
        data_info := by
  simp only [mainEvents]
  rw [hinfo]
  by_cases hne : item = target_name <;>
    by_cases hnum : target_type = "numeric" <;>
      simp [hne, hnum, List.mem_flatMap]

/-- A printed-conclusion event never occurs before the final `try` block. -/
theorem printConclusion_not_mem_mainEvents (ci ct : Col)
    (item target_name target_type : String) (bins : Bins) (color : String)
    (fontsize : ℕ) (data_info : Option (List (String × List String)))
    (s t : String) :
    Event.printConclusionE s t ∉
      mainEvents ci ct item target_name target_type bins color fontsize
        data_info := by
  simp only [mainEvents]
  cases hinf : infoLookup data_info item <;>
    by_cases hne : item = target_name <;>
      by_cases hnum : target_type = "numeric" <;>
        simp [hinf, hne, hnum, List.mem_flatMap]

/-- C5: whenever the `info_table` lookup for `item` fails (absent table or
missing row) and the run otherwise proceeds, the routine completes without
surfacing the failure, prints the missing-value count of the column of
`item`, and never displays an info-table row. -/
theorem c5_info_lookup_failure_falls_back (df : Frame)
    (item target_name target_type : String) (bins : Bins) (color : String)
    (fontsize : ℕ) (descr_dict : Option (List (String × String)))
    (data_info : Option (List (String × List String))) (ci ct : Col)
    (htt : target_type = "numeric" ∨ target_type = "categorical")
    (hci : df.get? item = some ci) (hct : df.get? target_name = some ct)
    (hinfo : infoLookup data_info item = none) :
    ∃ res ev,
      num_variable_analysis df item target_name target_type bins color
          fontsize descr_dict data_info = .ok (res, ev) ∧
        Event.printMissingE item (naCount ci) ∈ ev ∧
        ∀ row, Event.displayInfoE row ∉ ev := by
  refine ⟨corrResult ci ct item target_name target_type,
    buildEvents ci ct item target_name target_type bins color fontsize
      descr_dict data_info, ?_, ?_, ?_⟩
  · unfold num_variable_analysis
    rw [if_pos htt, hci, hct]
  · unfold buildEvents
    exact List.mem_append_left _ (List.mem_append_left _
      (printMissing_mem_mainEvents ci ct item target_name target_type bins
        color fontsize data_info hinfo))
  · intro row h
    unfold buildEvents at h
    rcases List.mem_append.mp h with h' | h'
    · rcases List.mem_append.mp h' with h'' | h''
      · exact displayInfo_not_mem_mainEvents ci ct item target_name
          target_type bins color fontsize data_info hinfo row h''
      · unfold conclEvents at h''
        cases hd : dictLookup descr_dict item <;> simp [hd] at h''
    · simp at h'

/-- Witness for C5: a dataset with one missing entry in `item` and no
`info_table` supplied; the reported count is 1. -/
theorem c5_info_lookup_failure_falls_back_witness :
    infoLookup none "age" = none ∧
      ∃ res ev,
        num_variable_analysis
            ⟨[("age", [some 20, some 25, none, some 40]),
              ("price", [some 10, some 20, some 30, some 40])]⟩
            "age" "price" "numeric" (.count 100) "maroon" 14 none none =
          .ok (res, ev) ∧
          Event.printMissingE "age"
            (naCount [some 20, some 25, none, some 40]) ∈ ev ∧
          ∀ row, Event.displayInfoE row ∉ ev :=
  ⟨rfl, c5_info_lookup_failure_falls_back
    ⟨[("age", [some 20, some 25, none, some 40]),
      ("price", [some 10, some 20, some 30, some 40])]⟩
    "age" "price" "numeric" (.count 100) "maroon" 14 none none
    [some 20, some 25, none, some 40] [some 10, some 20, some 30, some 40]
    (Or.inl rfl) rfl rfl rfl⟩

/-- C6: the routine always completes with the conclusion block appended
after the rendered report (`plt.show`): when `annotations` has an entry for
`item` that entry is printed as the labeled conclusion, when the lookup
fails nothing is printed and no error is raised; no conclusion line ever
appears earlier in the run. -/
theorem c6_annotation_printed_iff_present (df : Frame)
    (item target_name target_type : String) (bins : Bins) (color : String)
    (fontsize : ℕ) (descr_dict : Option (List (String × String)))
    (data_info : Option (List (String × List String))) (ci ct : Col)
    (htt : target_type = "numeric" ∨ target_type = "categorical")
    (hci : df.get? item = some ci) (hct : df.get? target_name = some ct) :
    num_variable_analysis df item target_name target_type bins color fontsize
        descr_dict data_info =
      .ok (corrResult ci ct item target_name target_type,
        mainEvents ci ct item target_name target_type bins color fontsize
            data_info ++
          conclEvents descr_dict item ++ [.printBlankE]) ∧
      Event.showE ∈ mainEvents ci ct item target_name target_type bins color
        fontsize data_info ∧
      (∀ s t, Event.printConclusionE s t ∉
        mainEvents ci ct item target_name target_type bins color fontsize
          data_info) ∧
      (∀ t, dictLookup descr_dict item = some t →
        conclEvents descr_dict item = [.printConclusionE item t]) ∧
      (dictLookup descr_dict item = none → conclEvents descr_dict item = []) := by
  refine ⟨?_, ?_, ?_, ?_, ?_⟩
  · unfold num_variable_analysis
    rw [if_pos htt, hci, hct]
    rfl
  · simp only [mainEvents]
    simp [List.mem_append]
  · intro s t
    exact printConclusion_not_mem_mainEvents ci ct item target_name
      target_type bins color fontsize data_info s t
  · intro t ht
    unfold conclEvents
    rw [ht]
  · intro ht
    unfold conclEvents
    rw [ht]

/-- Witness for C6 on a dataset with an annotation entry for `item`. -/
theorem c6_annotation_printed_iff_present_witness :
    dictLookup (some [("x", "skewed to the right")]) "x" =
        some "skewed to the right" ∧
      conclEvents (some [("x", "skewed to the right")]) "x" =
        [.printConclusionE "x" "skewed to the right"] ∧
      Event.showE ∈ mainEvents [some 1] [some 2] "x" "y" "categorical"
        (.count 100) "maroon" 14 none :=
  ⟨rfl,
   (c6_annotation_printed_iff_present ⟨[("x", [some 1]), ("y", [some 2])]⟩
      "x" "y" "categorical" (.count 100) "maroon" 14
      (some [("x", "skewed to the right")]) none [some 1] [some 2]
      (Or.inr rfl) rfl rfl).2.2.2.1 "skewed to the right" rfl,
   (c6_annotation_printed_iff_present ⟨[("x", [some 1]), ("y", [some 2])]⟩
      "x" "y" "categorical" (.count 100) "maroon" 14
      (some [("x", "skewed to the right")]) none [some 1] [some 2]
      (Or.inr rfl) rfl rfl).2.1⟩

/-- The per-category kde/title/legend block contributes nothing to a count
of events its three constructors do not satisfy. -/
theorem kde_block_countP (target_name item : String) (fontsize : ℕ)
    (ct : Col) (p : Event → Bool)
    (hk : ∀ v, p (Event.kdeplotE target_name item v (eqCount ct v)) = false)
    (ht : p (Event.titleE item fontsize) = false)
    (hl : p (Event.legendE (fontsize - 1)) = false) :
    ((uniqueVals ct).flatMap (fun v =>
      [Event.kdeplotE target_name item v (eqCount ct v),
       Event.titleE item fontsize,
       Event.legendE (fontsize - 1)])).countP p = 0 := by
  induction uniqueVals ct with
  | nil => rfl
  | cons v vs ih =>
    rw [List.flatMap_cons, List.countP_append, ih, List.countP_cons,
      List.countP_cons, List.countP_cons, List.countP_nil, hk v, ht, hl]
    rfl

/-- The conclusion block contributes nothing to a count of events that are
not printed conclusions. -/
theorem conclEvents_countP_zero (descr_dict : Option (List (String × String)))
    (item : String) (p : Event → Bool)
    (h : ∀ s t, p (Event.printConclusionE s t) = false) :
    (conclEvents descr_dict item).countP p = 0 := by
  unfold conclEvents
  cases dictLookup descr_dict item with
  | none => rfl
  | some t => rw [List.countP_cons, List.countP_nil, h item t]; rfl

/-- The report activates exactly three panels when `item` and `target_name`
differ and exactly two when they coincide. -/
theorem countP_panel_mainEvents (ci ct : Col)
    (item target_name target_type : String) (bins : Bins) (color : String)
    (fontsize : ℕ) (data_info : Option (List (String × List String))) :
    (mainEvents ci ct item target_name target_type bins color fontsize
        data_info).countP Event.isPanelActivation =
      if item ≠ target_name then 3 else 2 := by
  have hflat := kde_block_countP target_name item fontsize ct
    Event.isPanelActivation (fun v => rfl) rfl rfl
  simp only [mainEvents]
  cases hinf : infoLookup data_info item <;>
    by_cases hne : item = target_name <;>
      by_cases hnum : target_type = "numeric" <;>
        simp [hinf, hne, hnum, hflat, List.countP_append, List.countP_cons,
          Event.isPanelActivation]

/-- Exactly one figure is created during the report. -/
theorem countP_figure_mainEvents (ci ct : Col)
    (item target_name target_type : String) (bins : Bins) (color : String)
    (fontsize : ℕ) (data_info : Option (List (String × List String))) :
    (mainEvents ci ct item target_name target_type bins color fontsize
        data_info).countP Event.isFigureCreation = 1 := by
  have hflat := kde_block_countP target_name item fontsize ct
    Event.isFigureCreation (fun v => rfl) rfl rfl
  simp only [mainEvents]
  cases hinf : infoLookup data_info item <;>
    by_cases hne : item = target_name <;>
      by_cases hnum : target_type = "numeric" <;>
        simp [hinf, hne, hnum, hflat, List.countP_append, List.countP_cons,
          Event.isFigureCreation]

/-- Exactly one `plt.show()` happens during the report. -/
theorem countP_show_mainEvents (ci ct : Col)
    (item target_name target_type : String) (bins : Bins) (color : String)
    (fontsize : ℕ) (data_info : Option (List (String × List String))) :
    (mainEvents ci ct item target_name target_type bins color fontsize
        data_info).countP Event.isShow = 1 := by
  have hflat := kde_block_countP target_name item fontsize ct
    Event.isShow (fun v => rfl) rfl rfl
  simp only [mainEvents]
  cases hinf : infoLookup data_info item <;>
    by_cases hne : item = target_name <;>
      by_cases hnum : target_type = "numeric" <;>
        simp [hinf, hne, hnum, hflat, List.countP_append, List.countP_cons,
          Event.isShow]

/-- Every activated panel receives exactly one value-axis range assignment:
three `ylim` calls when `item` differs from `target_name`, two otherwise. -/
theorem countP_ylim_mainEvents (ci ct : Col)
    (item target_name target_type : String) (bins : Bins) (color : String)
    (fontsize : ℕ) (data_info : Option (List (String × List String))) :
    (mainEvents ci ct item target_name target_type bins color fontsize
        data_info).countP Event.isYlim =
      if item ≠ target_name then 3 else 2 := by
  have hflat := kde_block_countP target_name item fontsize ct
    Event.isYlim (fun v => rfl) rfl rfl
  simp only [mainEvents]
  cases hinf : infoLookup data_info item <;>
    by_cases hne : item = target_name <;>
      by_cases hnum : target_type = "numeric" <;>
        simp [hinf, hne, hnum, hflat, List.countP_append, List.countP_cons,
          Event.isYlim]

/-- Inversion of a successful run: the columns resolved, the result is the
correlation pair of the two columns and the log is the built event list. -/
theorem run_ok_inversion (df : Frame) (item target_name target_type : String)
    (bins : Bins) (color : String) (fontsize : ℕ)
    (descr_dict : Option (List (String × String)))
    (data_info : Option (List (String × List String)))
    (res : Option (Option ℝ × Option ℝ)) (ev : List Event)
    (h : num_variable_analysis df item target_name target_type bins color
      fontsize descr_dict data_info = .ok (res, ev)) :
    ∃ ci ct, df.get? item = some ci ∧ df.get? target_name = some ct ∧
      res = corrResult ci ct item target_name target_type ∧
      ev = buildEvents ci ct item target_name target_type bins color fontsize
        descr_dict data_info := by
  unfold num_variable_analysis at h
  by_cases htt : target_type = "numeric" ∨ target_type = "categorical"
  · rw [if_pos htt] at h
    cases hci : df.get? item with
    | none => rw [hci] at h; exact Except.noConfusion h
    | some ci =>
      rw [hci] at h
      cases hct : df.get? target_name with
      | none => rw [hct] at h; exact Except.noConfusion h
      | some ct =>
        rw [hct] at h
        injection h with h'
        rw [Prod.ext_iff] at h'
        exact ⟨ci, ct, rfl, rfl, h'.1.symm, h'.2.symm⟩
  · rw [if_neg htt] at h
    exact Except.noConfusion h

/-- C7: on every run that passes the `target_type` check, the produced
figure declares a 1-by-3 grid and activates exactly three panels when
`item` differs from `target_name`, and declares a 1-by-2 grid and activates
exactly two panels when they coincide; exactly one figure is created. -/
theorem c7_panel_layout (df : Frame) (item target_name target_type : String)
    (bins : Bins) (color : String) (fontsize : ℕ)
    (descr_dict : Option (List (String × String)))
    (data_info : Option (List (String × List String))) (ci ct : Col)
    (htt : target_type = "numeric" ∨ target_type = "categorical")
    (hci : df.get? item = some ci) (hct : df.get? target_name = some ct) :
    ∃ res ev,
      num_variable_analysis df item target_name target_type bins color
          fontsize descr_dict data_info = .ok (res, ev) ∧
        Event.subplotsE 1 (if item ≠ target_name then 3 else 2) ∈ ev ∧
        ev.countP Event.isPanelActivation =
          (if item ≠ target_name then 3 else 2) ∧
        ev.countP Event.isFigureCreation = 1 := by
  refine ⟨corrResult ci ct item target_name target_type,
    buildEvents ci ct item target_name target_type bins color fontsize
      descr_dict data_info, ?_, ?_, ?_, ?_⟩
  · unfold num_variable_analysis
    rw [if_pos htt, hci, hct]
  · unfold buildEvents
    refine List.mem_append_left _ (List.mem_append_left _ ?_)
    simp only [mainEvents]
    simp
  · unfold buildEvents
    rw [List.countP_append, List.countP_append,
      countP_panel_mainEvents,
      conclEvents_countP_zero descr_dict item _ (fun s t => rfl)]
    rfl
  · unfold buildEvents
    rw [List.countP_append, List.countP_append,
      countP_figure_mainEvents,
      conclEvents_countP_zero descr_dict item _ (fun s t => rfl)]
    rfl

/-- Witness for C7 with distinct columns (three panels). -/
theorem c7_panel_layout_witness :
    ("x" ≠ "y") ∧
      ∃ res ev,
        num_variable_analysis ⟨[("x", [some 1]), ("y", [some 2])]⟩ "x" "y"
            "numeric" (.count 100) "maroon" 14 none none = .ok (res, ev) ∧
          Event.subplotsE 1 (if "x" ≠ "y" then 3 else 2) ∈ ev ∧
          ev.countP Event.isPanelActivation = (if "x" ≠ "y" then 3 else 2) ∧
          ev.countP Event.isFigureCreation = 1 :=
  ⟨by decide,
   c7_panel_layout ⟨[("x", [some 1]), ("y", [some 2])]⟩ "x" "y" "numeric"
     (.count 100) "maroon" 14 none none [some 1] [some 2] (Or.inl rfl)
     rfl rfl⟩

/-- The running minimum of a fold is a lower bound of seed and elements. -/
theorem foldl_min_le {α : Type} [LinearOrder α] (xs : List α) :
    ∀ x : α, ∀ q ∈ x :: xs, xs.foldl min x ≤ q := by
  induction xs with
  | nil =>
    intro x q hq
    rw [List.mem_singleton] at hq
    subst hq
    exact le_refl _
  | cons y ys ih =>
    intro x q hq
    rcases List.mem_cons.mp hq with h | h
    · subst h
      exact le_trans (ih (min q y) (min q y) (List.mem_cons_self _ _))
        (min_le_left _ _)
    · rcases List.mem_cons.mp h with h' | h'
      · subst h'
        exact le_trans (ih (min x q) (min x q) (List.mem_cons_self _ _))
          (min_le_right _ _)
      · exact ih (min x y) q (List.mem_cons_of_mem _ h')

/-- The running minimum of a fold is one of the seed or the elements. -/
theorem foldl_min_mem {α : Type} [LinearOrder α] (xs : List α) :
    ∀ x : α, xs.foldl min x ∈ x :: xs := by
  induction xs with
  | nil => intro x; exact List.mem_singleton.mpr rfl
  | cons y ys ih =>
    intro x
    rw [List.foldl_cons]
    have h := ih (min x y)
    rcases List.mem_cons.mp h with h' | h'
    · rcases min_choice x y with hc | hc
      · rw [h', hc]; exact List.mem_cons_self _ _
      · rw [h', hc]; exact List.mem_cons_of_mem _ (List.mem_cons_self _ _)
    · exact List.mem_cons_of_mem _ (List.mem_cons_of_mem _ h')

/-- The running maximum of a fold is an upper bound of seed and elements. -/
theorem le_foldl_max {α : Type} [LinearOrder α] (xs : List α) :
    ∀ x : α, ∀ q ∈ x :: xs, q ≤ xs.foldl max x := by
  induction xs with
  | nil =>
    intro x q hq
    rw [List.mem_singleton] at hq
    subst hq
    exact le_refl _
  | cons y ys ih =>
    intro x q hq
    rcases List.mem_cons.mp hq with h | h
    · subst h
      exact le_trans (le_max_left _ _)
        (ih (max q y) (max q y) (List.mem_cons_self _ _))
    · rcases List.mem_cons.mp h with h' | h'
      · subst h'
        exact le_trans (le_max_right _ _)
          (ih (max x q) (max x q) (List.mem_cons_self _ _))
      · exact ih (max x y) q (List.mem_cons_of_mem _ h')

/-- The running maximum of a fold is one of the seed or the elements. -/
theorem foldl_max_mem {α : Type} [LinearOrder α] (xs : List α) :
    ∀ x : α, xs.foldl max x ∈ x :: xs := by
  induction xs with
  | nil => intro x; exact List.mem_singleton.mpr rfl
  | cons y ys ih =>
    intro x
    rw [List.foldl_cons]
    have h := ih (max x y)
    rcases List.mem_cons.mp h with h' | h'
    · rcases max_choice x y with hc | hc
      · rw [h', hc]; exact List.mem_cons_self _ _
      · rw [h', hc]; exact List.mem_cons_of_mem _ (List.mem_cons_self _ _)
    · exact List.mem_cons_of_mem _ (List.mem_cons_of_mem _ h')

/-- `df[item].min()` is the observed minimum of the defined entries. -/
theorem colMin_spec (c : Col) (hdef : definedVals c ≠ []) :
    colMin c ∈ definedVals c ∧ ∀ q ∈ definedVals c, colMin c ≤ q := by
  unfold colMin
  cases hd : definedVals c with
  | nil => exact absurd hd hdef
  | cons x xs => exact ⟨foldl_min_mem xs x, foldl_min_le xs x⟩

/-- `df[item].max()` is the observed maximum of the defined entries. -/
theorem colMax_spec (c : Col) (hdef : definedVals c ≠ []) :
    colMax c ∈ definedVals c ∧ ∀ q ∈ definedVals c, q ≤ colMax c := by
  unfold colMax
  cases hd : definedVals c with
  | nil => exact absurd hd hdef
  | cons x xs => exact ⟨foldl_max_mem xs x, le_foldl_max xs x⟩

/-- Every `ylim` assignment of the run carries the shared padded range
computed from the column of `item`. -/
theorem ylim_values_mainEvents (ci ct : Col)
    (item target_name target_type : String) (bins : Bins) (color : String)
    (fontsize : ℕ) (data_info : Option (List (String × List String)))
    (lo hi : ℚ)
    (h : Event.ylimE lo hi ∈ mainEvents ci ct item target_name target_type
      bins color fontsize data_info) :
    lo = colMin ci - (5 / 100 : ℚ) * (colMax ci - colMin ci) ∧
      hi = colMax ci + (5 / 100 : ℚ) * (colMax ci - colMin ci) := by
  simp only [mainEvents] at h
  cases hinf : infoLookup data_info item <;>
    by_cases hne : item = target_name <;>
      by_cases hnum : target_type = "numeric" <;>
        · rw [hinf] at h
          simp [hne, hnum, List.mem_flatMap] at h
          tauto

/-- C8: on every run that passes the `target_type` check, each panel gets
exactly one value-axis assignment, every assignment carries the same range
`[min - 0.05*(max - min), max + 0.05*(max - min)]`, and `min`/`max` are the
observed minimum and maximum of the defined entries of the column of
`item`. -/
theorem c8_shared_padded_value_range (df : Frame)
    (item target_name target_type : String) (bins : Bins) (color : String)
    (fontsize : ℕ) (descr_dict : Option (List (String × String)))
    (data_info : Option (List (String × List String))) (ci ct : Col)
    (htt : target_type = "numeric" ∨ target_type = "categorical")
    (hci : df.get? item = some ci) (hct : df.get? target_name = some ct)
    (hdef : definedVals ci ≠ []) :
    ∃ res ev,
      num_variable_analysis df item target_name target_type bins color
          fontsize descr_dict data_info = .ok (res, ev) ∧
        (∀ lo hi, Event.ylimE lo hi ∈ ev →
          lo = colMin ci - (5 / 100 : ℚ) * (colMax ci - colMin ci) ∧
          hi = colMax ci + (5 / 100 : ℚ) * (colMax ci - colMin ci)) ∧
        ev.countP Event.isYlim = (if item ≠ target_name then 3 else 2) ∧
        colMin ci ∈ definedVals ci ∧ colMax ci ∈ definedVals ci ∧
        (∀ q ∈ definedVals ci, colMin ci ≤ q ∧ q ≤ colMax ci) := by
  refine ⟨corrResult ci ct item target_name target_type,
    buildEvents ci ct item target_name target_type bins color fontsize
      descr_dict data_info, ?_, ?_, ?_, (colMin_spec ci hdef).1,
    (colMax_spec ci hdef).1,
    fun q hq => ⟨(colMin_spec ci hdef).2 q hq, (colMax_spec ci hdef).2 q hq⟩⟩
  · unfold num_variable_analysis
    rw [if_pos htt, hci, hct]
  · intro lo hi h
    unfold buildEvents at h
    rcases List.mem_append.mp h with h' | h'
    · rcases List.mem_append.mp h' with h'' | h''
      · exact ylim_values_mainEvents ci ct item target_name target_type bins
          color fontsize data_info lo hi h''
      · unfold conclEvents at h''
        cases hd : dictLookup descr_dict item <;> simp [hd] at h''
    · simp at h'
  · unfold buildEvents
    rw [List.countP_append, List.countP_append, countP_ylim_mainEvents,
      conclEvents_countP_zero descr_dict item _ (fun s t => rfl)]
    rfl

/-- Witness for C8 on the example dataset of the specification. -/
theorem c8_shared_padded_value_range_witness :
    definedVals [some 20, some 25, none, some 40] ≠ [] ∧
      ∃ res ev,
        num_variable_analysis
            ⟨[("age", [some 20, some 25, none, some 40]),
              ("price", [some 10, some 20, some 30, some 40])]⟩
            "age" "price" "numeric" (.count 100) "maroon" 14 none none =
          .ok (res, ev) ∧
          (∀ lo hi, Event.ylimE lo hi ∈ ev →
            lo = colMin [some 20, some 25, none, some 40] -
              (5 / 100 : ℚ) * (colMax [some 20, some 25, none, some 40] -
                colMin [some 20, some 25, none, some 40]) ∧
            hi = colMax [some 20, some 25, none, some 40] +
              (5 / 100 : ℚ) * (colMax [some 20, some 25, none, some 40] -
                colMin [some 20, some 25, none, some 40])) ∧
          ev.countP Event.isYlim = (if "age" ≠ "price" then 3 else 2) ∧
          colMin [some 20, some 25, none, some 40] ∈
            definedVals [some 20, some 25, none, some 40] ∧
          colMax [some 20, some 25, none, some 40] ∈
            definedVals [some 20, some 25, none, some 40] ∧
          (∀ q ∈ definedVals [some 20, some 25, none, some 40],
            colMin [some 20, some 25, none, some 40] ≤ q ∧
              q ≤ colMax [some 20, some 25, none, some 40]) :=
  ⟨by decide,
   c8_shared_padded_value_range
     ⟨[("age", [some 20, some 25, none, some 40]),
       ("price", [some 10, some 20, some 30, some 40])]⟩
     "age" "price" "numeric" (.count 100) "maroon" 14 none none
     [some 20, some 25, none, some 40] [some 10, some 20, some 30, some 40]
     (Or.inl rfl) rfl rfl (by decide)⟩

/-- C9: the routine never modifies the dataset and its only external
effects are rendering and printing: on every completed call the dataframe
of the world is unchanged, the output stream has only been appended to, and
the appended events render exactly one figure (one creation, one show). -/
theorem c9_dataset_unchanged_output_only (w : World)
    (item target_name target_type : String) (bins : Bins) (color : String)
    (fontsize : ℕ) (descr_dict : Option (List (String × String)))
    (data_info : Option (List (String × List String)))
    (res : Option (Option ℝ × Option ℝ)) (w' : World)
    (h : profileW w item target_name target_type bins color fontsize
      descr_dict data_info = .ok (res, w')) :
    w'.frame = w.frame ∧
      ∃ ev, w'.out = w.out ++ ev ∧
        ev.countP Event.isFigureCreation = 1 ∧
        ev.countP Event.isShow = 1 := by
  unfold profileW at h
  cases hrun : num_variable_analysis w.frame item target_name target_type
      bins color fontsize descr_dict data_info with
  | error e => rw [hrun] at h; exact Except.noConfusion h
  | ok r =>
    obtain ⟨res', ev'⟩ := r
    rw [hrun] at h
    simp only [Except.map] at h
    injection h with h'
    injection h' with hres0 hw
    subst hw
    obtain ⟨ci, ct, hci, hct, hres, hev⟩ := run_ok_inversion w.frame item
      target_name target_type bins color fontsize descr_dict data_info
      res' ev' hrun
    refine ⟨rfl, ev', rfl, ?_, ?_⟩
    · rw [hev]
      unfold buildEvents
      rw [List.countP_append, List.countP_append, countP_figure_mainEvents,
        conclEvents_countP_zero descr_dict item _ (fun s t => rfl)]
      rfl
    · rw [hev]
      unfold buildEvents
      rw [List.countP_append, List.countP_append, countP_show_mainEvents,
        conclEvents_countP_zero descr_dict item _ (fun s t => rfl)]
      rfl

/-- Witness for C9 on a concrete world and categorical run. -/
theorem c9_dataset_unchanged_output_only_witness :
    ∃ res w',
      profileW ⟨⟨[("x", [some 1]), ("y", [some 2])]⟩, []⟩ "x" "y"
          "categorical" (.count 100) "maroon" 14 none none = .ok (res, w') ∧
        w'.frame = ⟨[("x", [some 1]), ("y", [some 2])]⟩ ∧
        ∃ ev, w'.out = [] ++ ev ∧
          ev.countP Event.isFigureCreation = 1 ∧
          ev.countP Event.isShow = 1 := by
  obtain ⟨res, w', h⟩ :
      ∃ res w', profileW ⟨⟨[("x", [some 1]), ("y", [some 2])]⟩, []⟩ "x" "y"
        "categorical" (.count 100) "maroon" 14 none none = .ok (res, w') :=
    ⟨_, _, rfl⟩
  obtain ⟨h1, h2⟩ := c9_dataset_unchanged_output_only
    ⟨⟨[("x", [some 1]), ("y", [some 2])]⟩, []⟩ "x" "y" "categorical"
    (.count 100) "maroon" 14 none none res w' h
  exact ⟨res, w', h, h1, h2⟩

/-- Cauchy-Schwarz inequality for sums over a list. -/
theorem list_inner_sq_le {α : Type} (l : List α) (f g : α → ℚ) :
    ((l.map (fun a => f a * g a)).sum) ^ 2 ≤
      (l.map (fun a => f a ^ 2)).sum * (l.map (fun a => g a ^ 2)).sum := by
  have h1 : (l.map (fun a => f a * g a)).sum =
      ∑ i : Fin l.length, f (l.get i) * g (l.get i) :=
    (Fin.sum_univ_get' l (fun a => f a * g a)).symm
  have h2 : (l.map (fun a => f a ^ 2)).sum =
      ∑ i : Fin l.length, f (l.get i) ^ 2 :=
    (Fin.sum_univ_get' l (fun a => f a ^ 2)).symm
  have h3 : (l.map (fun a => g a ^ 2)).sum =
      ∑ i : Fin l.length, g (l.get i) ^ 2 :=
    (Fin.sum_univ_get' l (fun a => g a ^ 2)).symm
  rw [h1, h2, h3]
  exact Finset.sum_mul_sq_le_sq_mul_sq Finset.univ
    (fun i => f (l.get i)) (fun i => g (l.get i))

/-- Stated from the words of the specification: the mean of the first
coordinates of the pairwise-complete sample, as a real number. -/
noncomputable def specMeanX (l : List (ℚ × ℚ)) : ℝ :=
  (l.map (fun p => (p.1 : ℝ))).sum / (l.length : ℝ)

/-- Stated from the words of the specification: the mean of the second
coordinates of the pairwise-complete sample, as a real number. -/
noncomputable def specMeanY (l : List (ℚ × ℚ)) : ℝ :=
  (l.map (fun p => (p.2 : ℝ))).sum / (l.length : ℝ)

/-- Stated from the words of the specification: the standard Pearson
correlation coefficient of the sample, computed in the reals as the
centered cross-product sum divided by the product of the root centered
square sums. -/
noncomputable def specPearson (l : List (ℚ × ℚ)) : ℝ :=
  (l.map (fun p => ((p.1 : ℝ) - specMeanX l) * ((p.2 : ℝ) - specMeanY l))).sum /
    (Real.sqrt ((l.map (fun p => ((p.1 : ℝ) - specMeanX l) ^ 2)).sum) *
      Real.sqrt ((l.map (fun p => ((p.2 : ℝ) - specMeanY l) ^ 2)).sum))

/-- Stated from the words of the specification: the standard Spearman
correlation coefficient, the Pearson coefficient of the (average,
1-based) ranks of the sample. -/
noncomputable def specSpearman (l : List (ℚ × ℚ)) : ℝ :=
  specPearson (rankPairs l)

/-- The rational column mean embeds to the real mean of the casts. -/
theorem cast_mean_fst (l : List (ℚ × ℚ)) :
    ((lmean (l.map Prod.fst) : ℚ) : ℝ) = specMeanX l := by
  unfold lmean specMeanX
  push_cast
  rw [List.map_map, List.length_map]
  rfl

/-- The rational column mean embeds to the real mean of the casts. -/
theorem cast_mean_snd (l : List (ℚ × ℚ)) :
    ((lmean (l.map Prod.snd) : ℚ) : ℝ) = specMeanY l := by
  unfold lmean specMeanY
  push_cast
  rw [List.map_map, List.length_map]
  rfl

/-- The rational centered cross-product sum embeds to its real analogue. -/
theorem cast_covSum (l : List (ℚ × ℚ)) :
    ((covSum l : ℚ) : ℝ) =
      (l.map (fun p => ((p.1 : ℝ) - specMeanX l) *
        ((p.2 : ℝ) - specMeanY l))).sum := by
  unfold covSum
  push_cast
  rw [List.map_map]
  have hfun : (Rat.cast ∘ fun p : ℚ × ℚ =>
      (p.1 - lmean (l.map Prod.fst)) * (p.2 - lmean (l.map Prod.snd))) =
      (fun p : ℚ × ℚ => ((p.1 : ℝ) - specMeanX l) * ((p.2 : ℝ) - specMeanY l)) := by
    funext p
    simp only [Function.comp_apply]
    push_cast
    rw [cast_mean_fst, cast_mean_snd]
  rw [hfun]

/-- The rational centered square sum embeds to its real analogue. -/
theorem cast_varXSum (l : List (ℚ × ℚ)) :
    ((varXSum l : ℚ) : ℝ) =
      (l.map (fun p => ((p.1 : ℝ) - specMeanX l) ^ 2)).sum := by
  unfold varXSum
  push_cast
  rw [List.map_map]
  have hfun : (Rat.cast ∘ fun p : ℚ × ℚ =>
      (p.1 - lmean (l.map Prod.fst)) ^ 2) =
      (fun p : ℚ × ℚ => ((p.1 : ℝ) - specMeanX l) ^ 2) := by
    funext p
    simp only [Function.comp_apply]
    push_cast
    rw [cast_mean_fst]
  rw [hfun]

/-- The rational centered square sum embeds to its real analogue. -/
theorem cast_varYSum (l : List (ℚ × ℚ)) :
    ((varYSum l : ℚ) : ℝ) =
      (l.map (fun p => ((p.2 : ℝ) - specMeanY l) ^ 2)).sum := by
  unfold varYSum
  push_cast
  rw [List.map_map]
  have hfun : (Rat.cast ∘ fun p : ℚ × ℚ =>
      (p.2 - lmean (l.map Prod.snd)) ^ 2) =
      (fun p : ℚ × ℚ => ((p.2 : ℝ) - specMeanY l) ^ 2) := by
    funext p
    simp only [Function.comp_apply]
    push_cast
    rw [cast_mean_snd]
  rw [hfun]

/-- A centered square sum is nonnegative. -/
theorem varXSum_nonneg (l : List (ℚ × ℚ)) : 0 ≤ varXSum l := by
  apply List.sum_nonneg
  intro x hx
  obtain ⟨p, hp, rfl⟩ := List.mem_map.mp hx
  exact sq_nonneg _

/-- A centered square sum is nonnegative. -/
theorem varYSum_nonneg (l : List (ℚ × ℚ)) : 0 ≤ varYSum l := by
  apply List.sum_nonneg
  intro x hx
  obtain ⟨p, hp, rfl⟩ := List.mem_map.mp hx
  exact sq_nonneg _

/-- Cauchy-Schwarz for the centered sample sums. -/
theorem covSum_sq_le (l : List (ℚ × ℚ)) :
    covSum l ^ 2 ≤ varXSum l * varYSum l :=
  list_inner_sq_le l (fun p => p.1 - lmean (l.map Prod.fst))
    (fun p => p.2 - lmean (l.map Prod.snd))

/-- On a nondegenerate sample the coded coefficient is defined, equals the
standard Pearson coefficient of the specification, and lies in [-1, 1]. -/
theorem pearsonOf_eq_spec_and_bounded (l : List (ℚ × ℚ))
    (hv : varXSum l * varYSum l ≠ 0) :
    pearsonOf l = some (specPearson l) ∧
      -1 ≤ specPearson l ∧ specPearson l ≤ 1 := by
  have hx0 : (0 : ℚ) ≤ varXSum l := varXSum_nonneg l
  have hy0 : (0 : ℚ) ≤ varYSum l := varYSum_nonneg l
  have hxR : (0 : ℝ) ≤ (varXSum l : ℝ) := by exact_mod_cast hx0
  have hyR : (0 : ℝ) ≤ (varYSum l : ℝ) := by exact_mod_cast hy0
  have habR : (varXSum l : ℝ) * (varYSum l : ℝ) ≠ 0 := by
    have h := Rat.cast_ne_zero (α := ℝ).mpr hv
    rwa [Rat.cast_mul] at h
  have habpos : 0 < (varXSum l : ℝ) * (varYSum l : ℝ) := by
    rcases lt_or_eq_of_le (mul_nonneg hxR hyR) with h | h
    · exact h
    · exact absurd h.symm habR
  have hcs : ((covSum l : ℝ)) ^ 2 ≤ (varXSum l : ℝ) * (varYSum l : ℝ) := by
    exact_mod_cast covSum_sq_le l
  have hsq : 0 < Real.sqrt ((varXSum l : ℝ) * (varYSum l : ℝ)) :=
    Real.sqrt_pos.mpr habpos
  have hspec : (covSum l : ℝ) / Real.sqrt ((varXSum l : ℝ) * (varYSum l : ℝ)) =
      specPearson l := by
    unfold specPearson
    rw [← cast_covSum, ← cast_varXSum, ← cast_varYSum, Real.sqrt_mul hxR]
  have habs : |(covSum l : ℝ) /
      Real.sqrt ((varXSum l : ℝ) * (varYSum l : ℝ))| ≤ 1 := by
    rw [abs_div, abs_of_nonneg (Real.sqrt_nonneg _), div_le_one hsq]
    calc |(covSum l : ℝ)| = Real.sqrt ((covSum l : ℝ) ^ 2) :=
          (Real.sqrt_sq_eq_abs _).symm
      _ ≤ Real.sqrt ((varXSum l : ℝ) * (varYSum l : ℝ)) :=
          Real.sqrt_le_sqrt hcs
  rw [hspec] at habs
  refine ⟨?_, (abs_le.mp habs).1, (abs_le.mp habs).2⟩
  unfold pearsonOf
  rw [if_neg hv, hspec]

/-- C1 (amended): for distinct resolvable columns and a numeric target the
routine returns the pair of correlation coefficients; whenever the
pairwise-complete sample is nondegenerate (no vanishing centered square
sum, for the raw values and for their ranks), both returned coefficients
are defined real numbers lying in [-1, 1] and equal, respectively, to the
standard Pearson coefficient and the standard Spearman coefficient of the
specification, computed pairwise-complete. -/
theorem c1_numeric_correlation_amended (df : Frame)
    (item target_name : String) (bins : Bins) (color : String)
    (fontsize : ℕ) (descr_dict : Option (List (String × String)))
    (data_info : Option (List (String × List String))) (ci ct : Col)
    (hne : item ≠ target_name) (hci : df.get? item = some ci)
    (hct : df.get? target_name = some ct)
    (hx : varXSum (completePairs ci ct) * varYSum (completePairs ci ct) ≠ 0)
    (hs : varXSum (rankPairs (completePairs ci ct)) *
      varYSum (rankPairs (completePairs ci ct)) ≠ 0) :
    resultOf (num_variable_analysis df item target_name "numeric" bins color
        fontsize descr_dict data_info) =
      some (some (some (specPearson (completePairs ci ct)),
        some (specSpearman (completePairs ci ct)))) ∧
      -1 ≤ specPearson (completePairs ci ct) ∧
      specPearson (completePairs ci ct) ≤ 1 ∧
      -1 ≤ specSpearman (completePairs ci ct) ∧
      specSpearman (completePairs ci ct) ≤ 1 := by
  have hp := pearsonOf_eq_spec_and_bounded (completePairs ci ct) hx
  have hsp := pearsonOf_eq_spec_and_bounded (rankPairs (completePairs ci ct)) hs
  refine ⟨?_, hp.2.1, hp.2.2, hsp.2.1, hsp.2.2⟩
  unfold num_variable_analysis
  rw [if_pos (Or.inl rfl), hci, hct]
  show some (corrResult ci ct item target_name "numeric") = _
  unfold corrResult
  rw [if_pos ⟨hne, rfl⟩]
  unfold spearmanOf
  rw [hp.1, hsp.1]
  rfl

/-- Counterexample to C1 as stated: on the dataset with columns
`x = [1, 1]` and `y = [1, 2]`, both columns resolvable and distinct and
the target numeric, the routine returns the pair `(NaN, NaN)` (the column
of `x` has zero variance, so pandas produces NaN) and not a pair of real
numbers lying in [-1, 1]. -/
theorem c1_degenerate_returns_nan :
    resultOf (num_variable_analysis
      ⟨[("x", [some 1, some 1]), ("y", [some 1, some 2])]⟩
      "x" "y" "numeric" (.count 100) "maroon" 14 none none) =
      some (some (none, none)) := by
  have hcp : completePairs [some 1, some 1] [some 1, some 2] =
      [(1, 1), (1, 2)] := rfl
  have hvx : varXSum [((1 : ℚ), (1 : ℚ)), (1, 2)] = 0 := by
    norm_num [varXSum, lmean]
  have hrp : rankPairs [((1 : ℚ), (1 : ℚ)), (1, 2)] =
      [(3 / 2, 1), (3 / 2, 2)] := by
    norm_num [rankPairs, rankIn, List.countP_cons, List.countP_nil,
      decide_eq_true_eq]
  have hvxr : varXSum [((3 / 2 : ℚ), (1 : ℚ)), (3 / 2, 2)] = 0 := by
    norm_num [varXSum, lmean]
  have h1 : pearsonOf [((1 : ℚ), (1 : ℚ)), (1, 2)] = none := by
    unfold pearsonOf
    rw [if_pos]
    rw [hvx, zero_mul]
  have h2 : spearmanOf [((1 : ℚ), (1 : ℚ)), (1, 2)] = none := by
    unfold spearmanOf
    rw [hrp]
    unfold pearsonOf
    rw [if_pos]
    rw [hvxr, zero_mul]
  unfold num_variable_analysis
  rw [if_pos (Or.inl rfl)]
  rw [show Frame.get? ⟨[("x", [some 1, some 1]), ("y", [some 1, some 2])]⟩
      "x" = some [some 1, some 1] from rfl]
  rw [show Frame.get? ⟨[("x", [some 1, some 1]), ("y", [some 1, some 2])]⟩
      "y" = some [some 1, some 2] from rfl]
  show some (corrResult [some 1, some 1] [some 1, some 2] "x" "y" "numeric") = _
  unfold corrResult
  rw [if_pos ⟨by decide, rfl⟩, hcp, h1, h2]

/-- Witness for the amended C1 on the example of the specification:
`age = [20, 25, NaN, 40]` against numeric `price = [10, 20, 30, 40]`,
correlated over the three complete pairs. -/
theorem c1_numeric_correlation_amended_witness :
    ("age" : String) ≠ "price" ∧
      resultOf (num_variable_analysis
          ⟨[("age", [some 20, some 25, none, some 40]),
            ("price", [some 10, some 20, some 30, some 40])]⟩
          "age" "price" "numeric" (.count 100) "maroon" 14 none none) =
        some (some
          (some (specPearson (completePairs
            [some 20, some 25, none, some 40]
            [some 10, some 20, some 30, some 40])),
          some (specSpearman (completePairs
            [some 20, some 25, none, some 40]
            [some 10, some 20, some 30, some 40])))) ∧
      -1 ≤ specPearson (completePairs [some 20, some 25, none, some 40]
        [some 10, some 20, some 30, some 40]) ∧
      specPearson (completePairs [some 20, some 25, none, some 40]
        [some 10, some 20, some 30, some 40]) ≤ 1 ∧
      -1 ≤ specSpearman (completePairs [some 20, some 25, none, some 40]
        [some 10, some 20, some 30, some 40]) ∧
      specSpearman (completePairs [some 20, some 25, none, some 40]
        [some 10, some 20, some 30, some 40]) ≤ 1 := by
  have hcp : completePairs [some 20, some 25, none, some 40]
      [some 10, some 20, some 30, some 40] =
      [((20 : ℚ), (10 : ℚ)), (25, 20), (40, 40)] := rfl
  have hrp : rankPairs [((20 : ℚ), (10 : ℚ)), (25, 20), (40, 40)] =
      [((1 : ℚ), (1 : ℚ)), (2, 2), (3, 3)] := by
    norm_num [rankPairs, rankIn, List.countP_cons, List.countP_nil,
      decide_eq_true_eq]
  refine ⟨by decide, ?_⟩
  refine c1_numeric_correlation_amended
    ⟨[("age", [some 20, some 25, none, some 40]),
      ("price", [some 10, some 20, some 30, some 40])]⟩
    "age" "price" (.count 100) "maroon" 14 none none
    [some 20, some 25, none, some 40] [some 10, some 20, some 30, some 40]
    (by decide) rfl rfl ?_ ?_
  · rw [hcp]
    norm_num [varXSum, varYSum, lmean]
  · rw [hcp, hrp]
    norm_num [varXSum, varYSum, lmean]
